import Mathlib

/-!
# Verification of the workflow execution engine and UI helpers

A shallow embedding, in Lean 4, of the parts of the repository that the
frozen claims refer to:

* the `FunctionBlockHandler` (its implementation file is absent from the
  sources; it is modelled from the specification, corroborated by its unit
  tests, which exercise `canHandle`, code-input resolution, the default
  timeout, the tool envelope interpretation and the error fallback);
* the monotone-pruning invariant of `activeExecutionPath` (modelled from
  the specification of the Path Resolver and the Executor);
* `validateJsonSchema` / `validateFunctionCode` from the custom-tool modal;
* the workflow-logs `GET` route;
* the line-number gutter width computation of the `CodeEditor` component.

Machine integers do not occur; JavaScript values reachable from `JSON.parse`
are modelled by the inductive type `Js` with JavaScript truthiness.
-/

/-- A JavaScript value as producible by `JSON.parse`, together with
`undefined` (the result of reading an absent property). Numbers are modelled
as integers; no claim depends on non-integral numerics. -/
inductive Js where
  | undefined : Js
  | null : Js
  | bool : Bool → Js
  | num : Int → Js
  | str : String → Js
  | arr : List Js → Js
  | obj : List (String × Js) → Js

/-- JavaScript truthiness of a `Js` value (`Boolean(v)`). -/
def Js.truthy : Js → Bool
  | .undefined => false
  | .null => false
  | .bool b => b
  | .num n => n != 0
  | .str s => s != ""
  | .arr _ => true
  | .obj _ => true

/-- JavaScript strict equality `v === 's'` against a string literal. -/
def Js.isStr : Js → String → Bool
  | .str t, s => t == s
  | _, _ => false

/-- Property read `v.k`: `none` models a thrown `TypeError` (reading a
property of `null` or `undefined`); reading an absent key of an object, or
any named key of a primitive or array, yields `undefined`. -/
def Js.getField : Js → String → Option Js
  | .undefined, _ => none
  | .null, _ => none
  | .obj fields, k => some ((fields.lookup k).getD .undefined)
  | _, _ => some .undefined

/-! ## Data model of the execution engine (from §3 of the specification and
the serializer types used by the handler tests) -/

/-- Block metadata: the kind discriminator `id` and an optional display name. -/
structure BlockMetadata where
  id : String
  name : Option String

/-- Position of a block in the editor canvas. -/
structure Position where
  x : Int
  y : Int

/-- Static block configuration: tool identifier and static parameters. -/
structure BlockConfig where
  tool : String
  params : List (String × Js)

/-- A serialized workflow block (a node of the workflow graph). -/
structure SerializedBlock where
  id : String
  metadata : BlockMetadata
  position : Position
  config : BlockConfig
  inputs : List (String × String)
  outputs : List (String × String)
  enabled : Bool

/-- The run-scoped execution context, restricted to the fields the claims
touch. `workflowId` is read-only during the run. -/
structure ExecutionContext where
  workflowId : String
  environmentVariables : List (String × String)

/-- One fragment of a multi-part code input. -/
structure CodeFragment where
  content : String

/-- The `code` input of a function block: either a plain string or an
ordered sequence of code fragments. -/
inductive CodeInput where
  | str : String → CodeInput
  | fragments : List CodeFragment → CodeInput

/-- Resolved inputs handed to the function handler: the code and an
optional timeout. -/
structure FunctionInputs where
  code : CodeInput
  timeout : Option Nat

/-- The `_context` record passed along with every function tool call. -/
structure ToolCallContext where
  workflowId : String

/-- The parameter object passed to the external tool invocation. -/
structure ToolParams where
  code : String
  timeout : Nat
  _context : ToolCallContext

/-- The envelope returned by an external tool invocation:
`{ success, output?, error? }`. -/
structure ToolResponse where
  success : Bool
  output : Option Js := none
  error : Option String := none

/-- A block handler's output on success: `{ response: output }`. -/
structure BlockOutput where
  response : Option Js

namespace FunctionBlockHandler

/-- Modelled from the spec: the `FunctionBlockHandler.canHandle` predicate
(its implementation file is not among the sources; the spec describes it as
a pure predicate on the block's kind discriminator, true exactly for kind
`'function'`, and the unit tests confirm this on `metadata.id = 'function'`
versus `'other'`). -/
def canHandle (block : SerializedBlock) : Bool :=
  block.metadata.id == "function"

/-- Resolution of the `code` input: a string passes through, a fragment
sequence is joined with a newline separator in order. -/
def resolveCodeInput : CodeInput → String
  | .str s => s
  | .fragments l => String.intercalate "\n" (l.map CodeFragment.content)

/-- Modelled from the spec: the parameter object
`{ code, timeout, _context: { workflowId } }` the function handler passes to
the `function_execute` tool, with `timeout` defaulting to 5000 when the
input omits it. -/
def functionToolParams (inputs : FunctionInputs) (context : ExecutionContext) :
    ToolParams :=
  { code := resolveCodeInput inputs.code
    timeout := inputs.timeout.getD 5000
    _context := { workflowId := context.workflowId } }

/-- Modelled from the spec: `FunctionBlockHandler.execute` (implementation
file absent from the sources). It invokes the external `function_execute`
tool with `functionToolParams`; on a `success = false` envelope it fails
with the envelope's `error` message, or the fixed fallback
`"Function execution failed"` when that field is absent; on success it
returns `{ response: output }`. The external tool boundary is a parameter
`executeTool`, and failure is an `Except.error` carrying the thrown
message. -/
def execute (executeTool : String → ToolParams → ToolResponse)
    (_block : SerializedBlock) (inputs : FunctionInputs)
    (context : ExecutionContext) : Except String BlockOutput :=
  let result := executeTool "function_execute" (functionToolParams inputs context)
  if result.success then
    Except.ok { response := result.output }
  else
    Except.error (result.error.getD "Function execution failed")

end FunctionBlockHandler

/-! ## Sample data used by the witnesses (mirroring the unit-test fixtures) -/

/-- The block fixture of the handler unit tests. -/
def sampleBlock : SerializedBlock :=
  { id := "func-block-1"
    metadata := { id := "function", name := some "Test Function" }
    position := { x := 30, y := 30 }
    config := { tool := "function", params := [] }
    inputs := [("code", "string"), ("timeout", "number")]
    outputs := []
    enabled := true }

/-- A block of another kind, as in the `canHandle` unit test. -/
def otherBlock : SerializedBlock :=
  { sampleBlock with metadata := { id := "other", name := none } }

/-- A second block of kind `other` differing in every non-kind field. -/
def otherBlock2 : SerializedBlock :=
  { id := "b2"
    metadata := { id := "other", name := some "B2" }
    position := { x := 0, y := 1 }
    config := { tool := "email", params := [("x", Js.num 1)] }
    inputs := [("foo", "string")]
    outputs := [("bar", "string")]
    enabled := false }

/-- The context fixture of the handler unit tests. -/
def sampleContext : ExecutionContext :=
  { workflowId := "test-workflow-id", environmentVariables := [] }

/-- Resolved inputs with a plain string code and an explicit timeout. -/
def sampleInputs : FunctionInputs :=
  { code := .str "return 1 + 1", timeout := some 10000 }

/-- A failure envelope carrying an error message. -/
def sampleFailEnv : ToolResponse :=
  { success := false, error := some "boom" }

/-- A failure envelope with no error field. -/
def sampleBareFailEnv : ToolResponse :=
  { success := false }

/-- A success envelope with output `{result: 'X'}`. -/
def sampleSuccessEnv : ToolResponse :=
  { success := true, output := some (Js.obj [("result", Js.str "X")]) }

/-! ## Claims C1–C6: the Function Handler -/

/-- C1: whenever the tool call made by `execute` returns an envelope with
`success = false`, `execute` fails with the envelope's `error` message when
that field is present and with the fixed fallback message
`"Function execution failed"` when it is absent; and `execute` never fails
when `success = true`. -/
theorem functionHandler_failure_error_message
    (executeTool : String → ToolParams → ToolResponse)
    (block : SerializedBlock) (inputs : FunctionInputs)
    (context : ExecutionContext) (env : ToolResponse)
    (henv : executeTool "function_execute"
      (FunctionBlockHandler.functionToolParams inputs context) = env) :
    (env.success = false → ∀ msg, env.error = some msg →
      FunctionBlockHandler.execute executeTool block inputs context =
        Except.error msg) ∧
    (env.success = false → env.error = none →
      FunctionBlockHandler.execute executeTool block inputs context =
        Except.error "Function execution failed") ∧
    (env.success = true → ∃ out,
      FunctionBlockHandler.execute executeTool block inputs context =
        Except.ok out) := by
  have hex : FunctionBlockHandler.execute executeTool block inputs context =
      (if env.success then Except.ok { response := env.output }
       else Except.error (env.error.getD "Function execution failed")) := by
    simp only [FunctionBlockHandler.execute, henv]
  refine ⟨?_, ?_, ?_⟩
  · intro hs msg hmsg
    simp [hex, hs, hmsg]
  · intro hs hnone
    simp [hex, hs, hnone]
  · intro hs
    exact ⟨{ response := env.output }, by simp [hex, hs]⟩

/-- Witness for C1 at the unit-test envelopes: `{success:false, error:'boom'}`
fails with message `boom`, `{success:false}` fails with the fallback, and a
success envelope yields a non-failing result. -/
theorem functionHandler_failure_error_message_witness :
    FunctionBlockHandler.execute (fun _ _ => sampleFailEnv) sampleBlock
        sampleInputs sampleContext = Except.error "boom" ∧
    FunctionBlockHandler.execute (fun _ _ => sampleBareFailEnv) sampleBlock
        sampleInputs sampleContext =
      Except.error "Function execution failed" ∧
    ∃ out, FunctionBlockHandler.execute (fun _ _ => sampleSuccessEnv)
        sampleBlock sampleInputs sampleContext = Except.ok out :=
  ⟨(functionHandler_failure_error_message _ sampleBlock sampleInputs
      sampleContext sampleFailEnv rfl).1 rfl "boom" rfl,
   (functionHandler_failure_error_message _ sampleBlock sampleInputs
      sampleContext sampleBareFailEnv rfl).2.1 rfl rfl,
   (functionHandler_failure_error_message _ sampleBlock sampleInputs
      sampleContext sampleSuccessEnv rfl).2.2 rfl⟩

/-- C2: a multi-part code input is joined with a single newline separator in
fragment order before being passed as the `code` tool parameter (observed
through the tool boundary), and `[{content:'a'},{content:'b'}]` yields the
code string `"a\nb"`. -/
theorem functionHandler_joins_code_fragments
    (frags : List CodeFragment) (timeout : Option Nat)
    (block : SerializedBlock) (context : ExecutionContext) :
    (FunctionBlockHandler.functionToolParams
        { code := .fragments frags, timeout := timeout } context).code =
      String.intercalate "\n" (frags.map CodeFragment.content) ∧
    FunctionBlockHandler.execute (fun _ params => { success := false, error := some params.code })
        block { code := .fragments frags, timeout := timeout } context =
      Except.error (String.intercalate "\n" (frags.map CodeFragment.content)) ∧
    FunctionBlockHandler.resolveCodeInput
        (.fragments [{ content := "a" }, { content := "b" }]) = "a\nb" :=
  ⟨rfl, rfl, rfl⟩

/-- C3: the `timeout` tool parameter is 5000 when the input omits it, and is
the input's value unchanged when supplied. -/
theorem functionHandler_timeout_default
    (code : CodeInput) (context : ExecutionContext) :
    (FunctionBlockHandler.functionToolParams
        { code := code, timeout := none } context).timeout = 5000 ∧
    ∀ t : Nat, (FunctionBlockHandler.functionToolParams
        { code := code, timeout := some t } context).timeout = t :=
  ⟨rfl, fun _ => rfl⟩

/-- C4: whenever the tool call made by `execute` returns an envelope with
`success = true` and output `o`, `execute` returns `{ response: o }`; in
particular `{success:true, output:{result:'X'}}` maps to
`{response:{result:'X'}}`. -/
theorem functionHandler_success_wraps_output
    (executeTool : String → ToolParams → ToolResponse)
    (block : SerializedBlock) (inputs : FunctionInputs)
    (context : ExecutionContext) (env : ToolResponse)
    (henv : executeTool "function_execute"
      (FunctionBlockHandler.functionToolParams inputs context) = env)
    (hs : env.success = true) :
    FunctionBlockHandler.execute executeTool block inputs context =
      Except.ok { response := env.output } ∧
    FunctionBlockHandler.execute (fun _ _ => sampleSuccessEnv) block inputs context =
      Except.ok { response := some (Js.obj [("result", Js.str "X")]) } := by
  constructor
  · simp [FunctionBlockHandler.execute, henv, hs]
  · rfl

/-- Witness for C4 at the unit-test success envelope. -/
theorem functionHandler_success_wraps_output_witness :
    FunctionBlockHandler.execute (fun _ _ => sampleSuccessEnv) sampleBlock
        sampleInputs sampleContext =
      Except.ok { response := some (Js.obj [("result", Js.str "X")]) } :=
  (functionHandler_success_wraps_output (fun _ _ => sampleSuccessEnv)
    sampleBlock sampleInputs sampleContext sampleSuccessEnv rfl rfl).1

/-- C5: `canHandle` is true exactly when the block's kind discriminator
(`metadata.id`) is `'function'`, and it depends on nothing but that
discriminator: two blocks with the same discriminator get the same verdict
regardless of configuration, inputs, position or enabled flag. -/
theorem functionHandler_canHandle_kind_only :
    (∀ block : SerializedBlock,
      FunctionBlockHandler.canHandle block = true ↔
        block.metadata.id = "function") ∧
    (∀ b₁ b₂ : SerializedBlock, b₁.metadata.id = b₂.metadata.id →
      FunctionBlockHandler.canHandle b₁ = FunctionBlockHandler.canHandle b₂) := by
  constructor
  · intro block
    simp [FunctionBlockHandler.canHandle]
  · intro b₁ b₂ h
    simp [FunctionBlockHandler.canHandle, h]

/-- Witness for C5: the function-kind fixture is handled, and two distinct
`other`-kind blocks get the same (negative) verdict. -/
theorem functionHandler_canHandle_kind_only_witness :
    FunctionBlockHandler.canHandle sampleBlock = true ∧
    FunctionBlockHandler.canHandle otherBlock =
      FunctionBlockHandler.canHandle otherBlock2 :=
  ⟨(functionHandler_canHandle_kind_only.1 sampleBlock).mpr rfl,
   functionHandler_canHandle_kind_only.2 otherBlock otherBlock2 rfl⟩

/-- C6: `execute` consults the external tool boundary only at the tool named
`function_execute` with the parameter object built from the resolved code,
the timeout, and a `_context` record carrying the context's `workflowId`:
two tool boundaries that agree there give identical results, and the
parameter object's fields are exactly those three values. -/
theorem functionHandler_invokes_function_execute
    (et₁ et₂ : String → ToolParams → ToolResponse)
    (block : SerializedBlock) (inputs : FunctionInputs)
    (context : ExecutionContext)
    (h : et₁ "function_execute" (FunctionBlockHandler.functionToolParams inputs context) =
      et₂ "function_execute" (FunctionBlockHandler.functionToolParams inputs context)) :
    FunctionBlockHandler.execute et₁ block inputs context =
      FunctionBlockHandler.execute et₂ block inputs context ∧
    (FunctionBlockHandler.functionToolParams inputs context)._context.workflowId =
      context.workflowId ∧
    (FunctionBlockHandler.functionToolParams inputs context).code =
      FunctionBlockHandler.resolveCodeInput inputs.code ∧
    (FunctionBlockHandler.functionToolParams inputs context).timeout =
      inputs.timeout.getD 5000 :=
  ⟨by simp [FunctionBlockHandler.execute, h], rfl, rfl, rfl⟩

/-- Witness for C6: a boundary that answers every call with the failure
envelope and a boundary that special-cases a differently named tool agree at
`function_execute`, so `execute` cannot tell them apart. -/
theorem functionHandler_invokes_function_execute_witness :
    FunctionBlockHandler.execute (fun _ _ => sampleFailEnv) sampleBlock
        sampleInputs sampleContext =
      FunctionBlockHandler.execute
        (fun name _ => if name == "other_tool" then sampleSuccessEnv else sampleFailEnv)
        sampleBlock sampleInputs sampleContext ∧
    (FunctionBlockHandler.functionToolParams sampleInputs
        sampleContext)._context.workflowId = "test-workflow-id" :=
  ⟨(functionHandler_invokes_function_execute (fun _ _ => sampleFailEnv)
      (fun name _ => if name == "other_tool" then sampleSuccessEnv else sampleFailEnv)
      sampleBlock sampleInputs sampleContext rfl).1,
   (functionHandler_invokes_function_execute (fun _ _ => sampleFailEnv)
      (fun name _ => if name == "other_tool" then sampleSuccessEnv else sampleFailEnv)
      sampleBlock sampleInputs sampleContext rfl).2.1⟩

/-! ## Claim C7: monotone pruning of `activeExecutionPath`

The Executor and Path Resolver are not among the source files; the run-state
transitions are modelled from the specification (§4.1, §4.4, §4.6): a block
may only execute (and log) while it is in `activeExecutionPath`; a decision
block's execution atomically records its branch and removes a pruned set of
blocks from `activeExecutionPath`; loop iteration updates the iteration
counter and current-item binding. No transition adds to
`activeExecutionPath`. -/

/-- One entry of `blockLogs`: the executed block's id and its success flag. -/
structure LogEntry where
  blockId : String
  success : Bool

/-- The mutable run-scoped state the C7 invariant speaks about. -/
structure RunState where
  activeExecutionPath : Finset String
  executedBlocks : Finset String
  blockLogs : List LogEntry
  routerDecisions : List (String × String)
  conditionDecisions : List (String × String)
  loopIterations : List (String × Nat)
  loopItems : List (String × Js)

/-- Modelled from the spec: one scheduling transition of the Executor.
`execBlock` runs a non-decision block (it must be in the active path);
`decision` runs a router/condition block, records its selected branch and
prunes a set of blocks in one transaction; `loopIterate` re-enters a loop
body, updating the iteration counter and the current-item binding. -/
inductive Step : RunState → RunState → Prop
  | execBlock (s : RunState) (bId : String) (entry : LogEntry)
      (hb : bId ∈ s.activeExecutionPath) (hid : entry.blockId = bId) :
      Step s { s with
        blockLogs := s.blockLogs ++ [entry]
        executedBlocks := insert bId s.executedBlocks }
  | decision (s : RunState) (bId : String) (entry : LogEntry)
      (branch : String) (isRouter : Bool) (pruned : Finset String)
      (hb : bId ∈ s.activeExecutionPath) (hid : entry.blockId = bId) :
      Step s { s with
        activeExecutionPath := s.activeExecutionPath \ pruned
        blockLogs := s.blockLogs ++ [entry]
        executedBlocks := insert bId s.executedBlocks
        routerDecisions :=
          if isRouter then s.routerDecisions ++ [(bId, branch)]
          else s.routerDecisions
        conditionDecisions :=
          if isRouter then s.conditionDecisions
          else s.conditionDecisions ++ [(bId, branch)] }
  | loopIterate (s : RunState) (loopId : String) (item : Js)
      (hb : loopId ∈ s.activeExecutionPath) :
      Step s { s with
        loopIterations :=
          (loopId, (s.loopIterations.lookup loopId).getD 0 + 1) ::
            s.loopIterations
        loopItems := (loopId, item) :: s.loopItems }

/-- A run segment: zero or more Executor transitions. -/
def Run : RunState → RunState → Prop :=
  Relation.ReflTransGen Step

/-- Every single transition keeps `activeExecutionPath` inside its previous
value, and appends no log entry for a block outside the active path. -/
theorem step_shrinks_active (s s' : RunState) (h : Step s s') :
    s'.activeExecutionPath ⊆ s.activeExecutionPath ∧
    ∀ c, c ∉ s.activeExecutionPath →
      s'.blockLogs.filter (fun e => e.blockId == c) =
        s.blockLogs.filter (fun e => e.blockId == c) := by
  cases h with
  | execBlock bId entry hb hid =>
    refine ⟨Finset.Subset.refl _, ?_⟩
    intro c hc
    have hne : (entry.blockId == c) = false := by
      rw [hid]
      exact beq_eq_false_iff_ne.mpr fun hbc => hc (hbc ▸ hb)
    simp [List.filter_append, hne]
  | decision bId entry branch isRouter pruned hb hid =>
    refine ⟨Finset.sdiff_subset, ?_⟩
    intro c hc
    have hne : (entry.blockId == c) = false := by
      rw [hid]
      exact beq_eq_false_iff_ne.mpr fun hbc => hc (hbc ▸ hb)
    simp [List.filter_append, hne]
  | loopIterate loopId item hb =>
    exact ⟨Finset.Subset.refl _, fun c _ => rfl⟩

/-- C7: over any run segment, `activeExecutionPath` only shrinks (the final
set is a subset of the initial one); a block outside the set at any point is
still outside it at every later point (never re-added); and such a block
gains no `blockLogs` entry for the rest of the run. -/
theorem activeExecutionPath_monotone (s s' : RunState) (h : Run s s') :
    s'.activeExecutionPath ⊆ s.activeExecutionPath ∧
    ∀ c, c ∉ s.activeExecutionPath →
      c ∉ s'.activeExecutionPath ∧
      s'.blockLogs.filter (fun e => e.blockId == c) =
        s.blockLogs.filter (fun e => e.blockId == c) := by
  induction h with
  | refl => exact ⟨Finset.Subset.refl _, fun c hc => ⟨hc, rfl⟩⟩
  | tail _ hstep ih =>
    obtain ⟨hsub, hlog⟩ := ih
    have hs := step_shrinks_active _ _ hstep
    refine ⟨hs.1.trans hsub, ?_⟩
    intro c hc
    obtain ⟨hc', hfil⟩ := hlog c hc
    exact ⟨fun hmem => hc' (hs.1 hmem), by rw [hs.2 c hc', hfil]⟩

/-- Initial state for the C7 witness: three active blocks, nothing yet run. -/
def wState0 : RunState :=
  { activeExecutionPath := {"start", "a", "b"}
    executedBlocks := ∅
    blockLogs := []
    routerDecisions := []
    conditionDecisions := []
    loopIterations := []
    loopItems := [] }

/-- State after the router at `start` selects branch `a` and prunes `b`. -/
def wState1 : RunState :=
  { wState0 with
    activeExecutionPath := wState0.activeExecutionPath \ {"b"}
    blockLogs := wState0.blockLogs ++ [{ blockId := "start", success := true }]
    executedBlocks := insert "start" wState0.executedBlocks
    routerDecisions :=
      if true then wState0.routerDecisions ++ [("start", "a")]
      else wState0.routerDecisions
    conditionDecisions :=
      if true then wState0.conditionDecisions
      else wState0.conditionDecisions ++ [("start", "a")] }

/-- The single decision transition between the two witness states. -/
theorem wStep01 : Step wState0 wState1 :=
  Step.decision wState0 "start" { blockId := "start", success := true }
    "a" true {"b"} (by decide) rfl

/-- Witness for C7 at a concrete one-step run: the path shrinks, and the
never-active block `z` stays outside the path with no log entries. -/
theorem activeExecutionPath_monotone_witness :
    wState1.activeExecutionPath ⊆ wState0.activeExecutionPath ∧
    "z" ∉ wState1.activeExecutionPath ∧
    wState1.blockLogs.filter (fun e => e.blockId == "z") =
      wState0.blockLogs.filter (fun e => e.blockId == "z") :=
  ⟨(activeExecutionPath_monotone wState0 wState1
      (Relation.ReflTransGen.single wStep01)).1,
   ((activeExecutionPath_monotone wState0 wState1
      (Relation.ReflTransGen.single wStep01)).2 "z" (by decide)).1,
   ((activeExecutionPath_monotone wState0 wState1
      (Relation.ReflTransGen.single wStep01)).2 "z" (by decide)).2⟩

/-! ## Claim C8: custom-tool modal validation -/

/-- The pure validation function of the custom-tool modal: an empty string
is rejected; otherwise the string is parsed (`jsonParse` stands for
`JSON.parse`, `none` modelling a thrown parse error, which the source
catches and turns into `false`); the parsed value must have a truthy `type`
strictly equal to `'function'` and a truthy `function` whose `name` is
truthy. A property read that throws (`getField = none`) is likewise caught
as `false`. -/
def validateJsonSchema (jsonParse : String → Option Js) (schema : String) :
    Bool :=
  if schema == "" then false
  else
    match jsonParse schema with
    | none => false
    | some parsed =>
      match parsed.getField "type" with
      | none => false
      | some t =>
        if !t.truthy || !(t.isStr "function") then false
        else
          match parsed.getField "function" with
          | none => false
          | some f =>
            if !f.truthy then false
            else
              match f.getField "name" with
              | none => false
              | some n => n.truthy

/-- The code-validation function of the custom-tool modal: it allows every
string, including the empty one. -/
def validateFunctionCode (_code : String) : Bool :=
  true

/-- The claim's reading of schema validity: the string parses as a JSON
object whose `type` key is the string `'function'` and whose `function` key
is an object with a truthy (for a string: non-empty) `name` key. -/
def schemaValidSpec (jsonParse : String → Option Js) (schema : String) :
    Prop :=
  ∃ fields, jsonParse schema = some (Js.obj fields) ∧
    fields.lookup "type" = some (Js.str "function") ∧
    ∃ ffields, fields.lookup "function" = some (Js.obj ffields) ∧
      ∃ n, ffields.lookup "name" = some n ∧ n.truthy = true

/-- C8: provided `JSON.parse` rejects the empty string (it does — the empty
string is not valid JSON), `validateJsonSchema` returns `true` exactly for
strings that parse to a JSON object with `type = 'function'` and a
`function` object carrying a truthy `name`; and `validateFunctionCode`
accepts every string. -/
theorem validateJsonSchema_characterization
    (jsonParse : String → Option Js) (hempty : jsonParse "" = none) :
    (∀ schema, validateJsonSchema jsonParse schema = true ↔
      schemaValidSpec jsonParse schema) ∧
    (∀ code, validateFunctionCode code = true) := by
  refine ⟨fun schema => ⟨?_, ?_⟩, fun _ => rfl⟩
  · intro h
    unfold validateJsonSchema at h
    split at h
    · exact absurd h (by simp)
    split at h
    · exact absurd h (by simp)
    rename_i parsed hp
    split at h
    · exact absurd h (by simp)
    rename_i t htype
    split at h
    · exact absurd h (by simp)
    rename_i hcond
    split at h
    · exact absurd h (by simp)
    rename_i f hf
    split at h
    · exact absurd h (by simp)
    rename_i hftr
    split at h
    · exact absurd h (by simp)
    rename_i n hn
    simp only [Bool.or_eq_true, Bool.not_eq_true', not_or,
      Bool.not_eq_false] at hcond
    obtain ⟨-, hstr⟩ := hcond
    simp only [Bool.not_eq_true', Bool.not_eq_false] at hftr
    have hne2 : n ≠ Js.undefined := by
      intro hx
      rw [hx] at h
      exact absurd h (by simp [Js.truthy])
    cases t <;> simp [Js.isStr] at hstr
    rename_i ts
    subst hstr
    cases parsed <;> simp [Js.getField] at htype hf
    rename_i fields
    rcases hl : List.lookup "type" fields with _ | tv
    · rw [hl] at htype
      exact absurd htype.symm (by simp)
    rw [hl, Option.getD_some] at htype
    subst htype
    rcases hlf : List.lookup "function" fields with _ | fv
    · rw [hlf] at hf
      rw [← hf] at hftr
      exact absurd hftr (by simp [Js.truthy])
    rw [hlf, Option.getD_some] at hf
    subst hf
    cases fv <;> simp [Js.getField] at hn
    · exact absurd hn.symm hne2
    · exact absurd hn.symm hne2
    · exact absurd hn.symm hne2
    · exact absurd hn.symm hne2
    rename_i ffields
    rcases hln : List.lookup "name" ffields with _ | nv
    · rw [hln] at hn
      exact absurd hn.symm hne2
    rw [hln, Option.getD_some] at hn
    subst hn
    exact ⟨fields, hp, hl, ffields, hlf, nv, hln, h⟩
  · rintro ⟨fields, hp, htype, ffields, hf, n, hn, htr⟩
    have hne : (schema == "") = false := by
      rw [beq_eq_false_iff_ne]
      intro hs
      rw [hs, hempty] at hp
      exact Option.noConfusion hp
    have ht1 : (Js.str "function").truthy = true := rfl
    have ht2 : (Js.str "function").isStr "function" = true := rfl
    have ht3 : (Js.obj ffields).truthy = true := rfl
    simp [validateJsonSchema, hne, hp, Js.getField, htype, hf, hn, htr,
      ht1, ht2, ht3]

/-- A concrete stand-in for `JSON.parse` used by the C8 witness: it parses
exactly one marker string to a well-formed function schema and rejects
everything else (in particular the empty string). -/
def sampleParse : String → Option Js := fun s =>
  if s == "good" then
    some (Js.obj [("type", Js.str "function"),
                  ("function", Js.obj [("name", Js.str "addItemToOrder")])])
  else none

/-- Witness for C8: a parsed schema with `type = 'function'` and a named
function is accepted, and the empty code string is accepted by
`validateFunctionCode`. -/
theorem validateJsonSchema_characterization_witness :
    validateJsonSchema sampleParse "good" = true ∧
    validateFunctionCode "" = true :=
  ⟨((validateJsonSchema_characterization sampleParse rfl).1 "good").mpr
      ⟨[("type", Js.str "function"),
        ("function", Js.obj [("name", Js.str "addItemToOrder")])],
        rfl, rfl, [("name", Js.str "addItemToOrder")], rfl,
        Js.str "addItemToOrder", rfl, rfl⟩,
   (validateJsonSchema_characterization sampleParse rfl).2 ""⟩

/-! ## Claim C9: the workflow-logs `GET` route -/

/-- A row of the `workflow` table, restricted to the columns the route
reads. -/
structure WorkflowRow where
  id : String
  name : Option String

/-- A row of the `workflowLogs` table, restricted to the columns the route
reads. `createdAt` is `some` of an ISO timestamp when the column holds a
`Date`, `none` otherwise. -/
structure WorkflowLogRow where
  workflowId : String
  executionId : Option String
  level : String
  duration : String
  createdAt : Option String

/-- One entry of the JSON body the route returns for a log row. -/
structure TransformedLog where
  workflowName : String
  success : Bool
  workflow_id : String
  execution_id : String
  created_at : String
  duration : String
  level : String

/-- The per-row transformation of the route: `success` is set to
`duration !== 'NA' && level !== 'error'`; `executionId` falls back to
`'N/A'` when absent (or empty, JavaScript falsy); `created_at` falls back
to the current time `nowIso` when the column holds no `Date`. -/
def transformLog (workflowName : String) (nowIso : String)
    (log : WorkflowLogRow) : TransformedLog :=
  { workflowName := workflowName
    success := log.duration != "NA" && log.level != "error"
    workflow_id := log.workflowId
    execution_id :=
      match log.executionId with
      | some e => if e == "" then "N/A" else e
      | none => "N/A"
    created_at := log.createdAt.getD nowIso
    duration := log.duration
    level := log.level }

/-- The route's possible responses: 200 with the transformed logs, 400, 404
and 500 with their error strings. -/
inductive LogsResponse where
  | ok (logs : List TransformedLog)
  | badRequest (error : String)
  | notFound (error : String)
  | serverError (error : String)

/-- The workflow-logs `GET` route. The database boundary is passed in as
two queries (`selectWorkflow`, `selectLogs`); `Except.error` models a
thrown exception, which the route's `catch` turns into a 500 response. A
missing id (JavaScript falsy, i.e. empty) yields 400; an empty workflow
query result yields 404; otherwise the fetched log rows are transformed
and returned. -/
def getWorkflowLogsRoute (id : String)
    (selectWorkflow : String → Except String (List WorkflowRow))
    (selectLogs : String → Except String (List WorkflowLogRow))
    (nowIso : String) : LogsResponse :=
  if id == "" then .badRequest "Workflow ID is required"
  else
    match selectWorkflow id with
    | .error _ => .serverError "Failed to fetch workflow logs"
    | .ok workflowData =>
      if workflowData.isEmpty then .notFound "Workflow not found"
      else
        match selectLogs id with
        | .error _ => .serverError "Failed to fetch workflow logs"
        | .ok logs =>
          let workflowName :=
            match workflowData.head? with
            | some w =>
              match w.name with
              | some nm => if nm == "" then "Unknown Workflow" else nm
              | none => "Unknown Workflow"
            | none => "Unknown Workflow"
          .ok (logs.map (transformLog workflowName nowIso))

/-- C9: the route answers 400 exactly when the id is missing, 404 when the
workflow query comes back empty, 500 when either database query throws, and
otherwise every returned entry's `success` flag equals
`duration ≠ 'NA' ∧ level ≠ 'error'`. -/
theorem workflowLogsRoute_statuses (id : String)
    (selectWorkflow : String → Except String (List WorkflowRow))
    (selectLogs : String → Except String (List WorkflowLogRow))
    (nowIso : String) :
    (id = "" → getWorkflowLogsRoute id selectWorkflow selectLogs nowIso =
      .badRequest "Workflow ID is required") ∧
    (∀ e, id ≠ "" → selectWorkflow id = .error e →
      getWorkflowLogsRoute id selectWorkflow selectLogs nowIso =
        .serverError "Failed to fetch workflow logs") ∧
    (id ≠ "" → selectWorkflow id = .ok [] →
      getWorkflowLogsRoute id selectWorkflow selectLogs nowIso =
        .notFound "Workflow not found") ∧
    (∀ wd e, id ≠ "" → selectWorkflow id = .ok wd → wd ≠ [] →
      selectLogs id = .error e →
      getWorkflowLogsRoute id selectWorkflow selectLogs nowIso =
        .serverError "Failed to fetch workflow logs") ∧
    (∀ out, getWorkflowLogsRoute id selectWorkflow selectLogs nowIso =
        .ok out →
      ∀ l ∈ out, l.success = (l.duration != "NA" && l.level != "error")) := by
  refine ⟨?_, ?_, ?_, ?_, ?_⟩
  · intro h
    subst h
    simp [getWorkflowLogsRoute]
  · intro e hne hsel
    have hb : (id == "") = false := beq_eq_false_iff_ne.mpr hne
    simp [getWorkflowLogsRoute, hb, hsel]
  · intro hne hsel
    have hb : (id == "") = false := beq_eq_false_iff_ne.mpr hne
    simp [getWorkflowLogsRoute, hb, hsel]
  · intro wd e hne hsel hwd hlg
    have hb : (id == "") = false := beq_eq_false_iff_ne.mpr hne
    obtain ⟨w, ws, rfl⟩ := List.exists_cons_of_ne_nil hwd
    simp [getWorkflowLogsRoute, hb, hsel, hlg]
  · intro out hout l hl
    by_cases hid : id = ""
    · subst hid
      simp [getWorkflowLogsRoute] at hout
    · have hb : (id == "") = false := beq_eq_false_iff_ne.mpr hid
      rcases hsel : selectWorkflow id with e | wd
      · simp [getWorkflowLogsRoute, hb, hsel] at hout
      · rcases wd with _ | ⟨w, ws⟩
        · simp [getWorkflowLogsRoute, hb, hsel] at hout
        · rcases hlg : selectLogs id with e | logs
          · simp [getWorkflowLogsRoute, hb, hsel, hlg] at hout
          · simp [getWorkflowLogsRoute, hb, hsel, hlg] at hout
            subst hout
            simp only [List.mem_map] at hl
            obtain ⟨lg, -, rfl⟩ := hl
            rfl

/-- Witness data: one workflow row and two log rows (one with duration
`NA`, one with a real duration). -/
def wSelectWorkflow : String → Except String (List WorkflowRow) :=
  fun _ => .ok [{ id := "w1", name := some "My Flow" }]

/-- Witness data: the log rows returned for workflow `w1`. -/
def wSelectLogs : String → Except String (List WorkflowLogRow) :=
  fun _ => .ok
    [{ workflowId := "w1", executionId := none, level := "info",
       duration := "NA", createdAt := none },
     { workflowId := "w1", executionId := some "e2", level := "info",
       duration := "123ms", createdAt := some "2024-01-01T00:00:00Z" }]

/-- The first transformed entry of the witness response. -/
def wT1 : TransformedLog :=
  transformLog "My Flow" "t0"
    { workflowId := "w1", executionId := none, level := "info",
      duration := "NA", createdAt := none }

/-- The witness response body. -/
def wOut : List TransformedLog :=
  [wT1,
   transformLog "My Flow" "t0"
     { workflowId := "w1", executionId := some "e2", level := "info",
       duration := "123ms", createdAt := some "2024-01-01T00:00:00Z" }]

/-- Witness for C9: the empty id yields 400, and in a concrete 200 response
the first entry's `success` flag matches its duration and level. -/
theorem workflowLogsRoute_statuses_witness :
    getWorkflowLogsRoute "" wSelectWorkflow wSelectLogs "t0" =
      LogsResponse.badRequest "Workflow ID is required" ∧
    wT1.success = (wT1.duration != "NA" && wT1.level != "error") :=
  ⟨(workflowLogsRoute_statuses "" wSelectWorkflow wSelectLogs "t0").1 rfl,
   (workflowLogsRoute_statuses "w1" wSelectWorkflow wSelectLogs "t0").2.2.2.2
     wOut rfl wT1 (List.Mem.head _)⟩

/-! ## Claim C10: the CodeEditor line-number gutter width -/

/-- JavaScript `code.split('\n')`, embedded structurally on the character
list: splitting at each newline yields one more segment than there are
newlines, with an empty string splitting to `[""]`, exactly as in
JavaScript. -/
def splitLines : List Char → List String
  | [] => [""]
  | c :: rest =>
    let r := splitLines rest
    if c = '\n' then "" :: r
    else
      match r with
      | [] => [String.singleton c]
      | h :: t => (String.singleton c ++ h) :: t

/-- The line count of the displayed code: `code.split('\n').length`. -/
def lineCount (code : String) : Nat :=
  (splitLines code.toList).length

/-- The gutter width of the `CodeEditor`:
`lineCount >= 100 ? '40px' : lineCount >= 10 ? '35px' : '30px'`. -/
def gutterWidth (code : String) : String :=
  if lineCount code ≥ 100 then "40px"
  else if lineCount code ≥ 10 then "35px"
  else "30px"

/-- Numeric value of a gutter width, used to state monotonicity. -/
def gutterPx (w : String) : Nat :=
  if w == "40px" then 40 else if w == "35px" then 35 else 30

/-- C10: the gutter width is `'40px'` for at least 100 lines, `'35px'` for
at least 10 but fewer than 100 lines, `'30px'` otherwise, and as a function
of the line count it is a monotone step function. -/
theorem gutterWidth_step_monotone :
    (∀ code, 100 ≤ lineCount code → gutterWidth code = "40px") ∧
    (∀ code, 10 ≤ lineCount code → lineCount code < 100 →
      gutterWidth code = "35px") ∧
    (∀ code, lineCount code < 10 → gutterWidth code = "30px") ∧
    (∀ c₁ c₂, lineCount c₁ ≤ lineCount c₂ →
      gutterPx (gutterWidth c₁) ≤ gutterPx (gutterWidth c₂)) := by
  refine ⟨?_, ?_, ?_, ?_⟩
  · intro code h
    unfold gutterWidth
    rw [if_pos h]
  · intro code h1 h2
    unfold gutterWidth
    rw [if_neg (by omega), if_pos h1]
  · intro code h
    unfold gutterWidth
    rw [if_neg (by omega), if_neg (by omega)]
  · intro c₁ c₂ h
    unfold gutterWidth
    split_ifs <;> first | decide | omega

/-- A 100-line code sample. -/
def bigCode : String := String.intercalate "\n" (List.replicate 100 "x")

/-- A 10-line code sample. -/
def midCode : String := "1\n2\n3\n4\n5\n6\n7\n8\n9\n10"

/-- Witness for C10 at concrete code samples of 100, 10 and 1 lines, plus
one monotonicity instance. -/
theorem gutterWidth_step_monotone_witness :
    gutterWidth bigCode = "40px" ∧
    gutterWidth midCode = "35px" ∧
    gutterWidth "a" = "30px" ∧
    gutterPx (gutterWidth "a") ≤ gutterPx (gutterWidth midCode) :=
  ⟨gutterWidth_step_monotone.1 bigCode (by set_option maxRecDepth 4000 in decide),
   gutterWidth_step_monotone.2.1 midCode (by decide) (by decide),
   gutterWidth_step_monotone.2.2.1 "a" (by decide),
   gutterWidth_step_monotone.2.2.2 "a" midCode (by decide)⟩
